import Mathlib

/-!
Shallow embedding of the admission workflow application (src/app.py).

The application is a Flask app over one SQLAlchemy model `Applicant`.
We embed the data model and the route handlers as pure Lean functions:

* the database session becomes an explicit `Store` (list of rows plus the
  next autoincrement id);
* the Flask `session` dict becomes an `AdminSession` record holding the
  `admin_logged_in` flag;
* outbound mail and SMS configuration become `MailConfig` / `SmsConfig`;
* the outcome of each external delivery call (which may raise) is passed
  in as an `Except Unit Unit` value, so the try/except structure of the
  helpers is modelled faithfully;
* handlers that may fail return `Except AppError ...`, where the error
  constructors follow the taxonomy of the specification (a Flask redirect
  with a flash message, or a 404, is modelled as the corresponding error).
-/

deriving instance DecidableEq for Except

namespace Admission

/-- Python `str.strip()`: remove leading and trailing whitespace.
Implemented structurally on the character list so that it evaluates
inside the kernel. -/
def pyStrip (s : String) : String :=
  ⟨((s.data.dropWhile Char.isWhitespace).reverse.dropWhile Char.isWhitespace).reverse⟩

/-- Error taxonomy of the specification.  The code itself signals these
as flash-plus-redirect or HTTP 404; the embedding represents them as
values.  `InvalidTransitionError` is included so that claims about it can
be stated, even though no code path in src/app.py produces it. -/
inductive AppError where
  | ValidationError
  | NotFoundError
  | InvalidTransitionError
  | AuthenticationError
  | UnauthorizedError
deriving DecidableEq, Repr

/-- The `Applicant` model of src/app.py lines 45-54: integer primary key,
required name and email, optional phone, course, address and admin note,
a status string defaulting to pending, and a creation timestamp. -/
structure Applicant where
  id : Nat
  full_name : String
  email : String
  phone : Option String
  course : Option String
  address : Option String
  status : String
  created_at : Nat
  admin_note : Option String
deriving DecidableEq, Repr

/-- The persistent store: the table of applicants plus the next
autoincrement primary key value (SQLite starts at 1). -/
structure Store where
  applicants : List Applicant
  nextId : Nat
deriving DecidableEq, Repr

/-- The Flask session, reduced to the one key the app uses. -/
structure AdminSession where
  admin_logged_in : Bool
deriving DecidableEq, Repr

/-- Outbound mail configuration (src/app.py lines 22-27).  Only the
fields the helpers inspect are kept. -/
structure MailConfig where
  mail_server : Option String
  mail_username : Option String
deriving DecidableEq, Repr

/-- SMS provider configuration (src/app.py lines 30-38): whether the
client object was constructed, and the sender number. -/
structure SmsConfig where
  clientConfigured : Bool
  from_number : Option String
deriving DecidableEq, Repr

/-- Python truthiness test for an optional string: `not x` is true
exactly when the value is absent or the empty string. -/
def pyFalsy : Option String → Bool
  | none => true
  | some s => s == ""

/-- Embeds `x.strip() if x else None` from src/app.py lines 108-110. -/
def stripOpt : Option String → Option String
  | none => none
  | some s => if s == "" then none else some (pyStrip s)

/-- The external mail delivery call `mail.send(msg)` inside the try
block of `send_email`: it either succeeds or raises. -/
def mail_send (attempt : Except Unit Unit) : Except Unit Unit := attempt

/-- The external SMS provider call `twilio_client.messages.create(...)`.
Modelled from the spec: the provider call with an absent recipient
number cannot deliver and raises, which the caller catches; otherwise
the outcome is the given external `attempt`. -/
def sms_provider_create (attempt : Except Unit Unit)
    (to_number : Option String) : Except Unit Unit :=
  match to_number with
  | none => .error ()
  | some _ => attempt

/-- `send_email` from src/app.py lines 60-72: skip (returning false)
when no mail server is configured; otherwise try the delivery call,
returning true on success and false (after logging) when it raises. -/
def send_email (cfg : MailConfig) (attempt : Except Unit Unit)
    (subject recipient html_body : String) : Bool :=
  if pyFalsy cfg.mail_server then
    false
  else
    match mail_send attempt with
    | .ok _ => true
    | .error _ => false

/-- `send_sms` from src/app.py lines 75-85: skip (returning false) when
the client or the sender number is unconfigured; otherwise try the
provider call, returning true on success and false when it raises. -/
def send_sms (cfg : SmsConfig) (attempt : Except Unit Unit)
    (to_number : Option String) (body : String) : Bool :=
  if !cfg.clientConfigured || pyFalsy cfg.from_number then
    false
  else
    match sms_provider_create attempt to_number with
    | .ok _ => true
    | .error _ => false

/-- The POST form of the register route. -/
structure RegForm where
  full_name : Option String
  email : Option String
  phone : Option String
  course : Option String
  address : Option String
deriving DecidableEq, Repr

/-- Result of a mutating handler: the new store, the affected row, the
email delivery result, and the SMS delivery result (`none` when no SMS
was attempted because the row has no phone). -/
abbrev HandlerResult := Store × Applicant × Bool × Option Bool

/-- The row constructed by the POST branch of `register` (src/app.py
lines 105-111): trimmed fields, the next autoincrement id, the model
defaults for status (pending) and the creation timestamp, and no admin
note yet. -/
def newApplicant (st : Store) (f : RegForm) (now : Nat) : Applicant :=
  { id := st.nextId
    full_name := pyStrip (f.full_name.getD "")
    email := pyStrip (f.email.getD "")
    phone := stripOpt f.phone
    course := stripOpt f.course
    address := stripOpt f.address
    status := "pending"
    created_at := now
    admin_note := none }

/-- The POST branch of `register` (src/app.py lines 92-126): reject with
a validation error when the name or the email is falsy (absent or empty,
tested before any trimming); otherwise build the row with trimmed
fields, status defaulting to pending and the next autoincrement id,
commit it, then send the received email and, when a phone is stored,
the received SMS. -/
def register (st : Store) (f : RegForm) (now : Nat)
    (mcfg : MailConfig) (scfg : SmsConfig)
    (emailAttempt smsAttempt : Except Unit Unit) :
    Except AppError HandlerResult :=
  if pyFalsy f.full_name || pyFalsy f.email then
    .error .ValidationError
  else
    let applicant : Applicant := newApplicant st f now
    let st' : Store :=
      { applicants := st.applicants ++ [applicant], nextId := st.nextId + 1 }
    let emailSent :=
      send_email mcfg emailAttempt
        ("Application received - " ++ applicant.full_name)
        applicant.email "email_template received"
    let smsSent : Option Bool :=
      match applicant.phone with
      | some p =>
          some (send_sms scfg smsAttempt (some p)
            ("Hi " ++ applicant.full_name ++ ", we received your application."))
      | none => none
    .ok (st', applicant, emailSent, smsSent)

/-- `Applicant.query.get_or_404(applicant_id)` on the list store. -/
def getApplicant (st : Store) (i : Nat) : Option Applicant :=
  st.applicants.find? (fun a => a.id == i)

/-- Committing a mutated row: replace the row with the same id. -/
def updateApplicant (st : Store) (a : Applicant) : Store :=
  { st with applicants := st.applicants.map (fun b => if b.id == a.id then a else b) }

/-- `approve_applicant` (src/app.py lines 174-191), with the
`admin_required` decorator (lines 149-157) applied first: unauthorized
when not logged in; 404 when the id is unknown; otherwise
unconditionally set status to approved and overwrite the admin note with
the posted note (empty string when absent), commit, then notify. -/
def approve_applicant (sess : AdminSession) (st : Store) (applicant_id : Nat)
    (admin_note : Option String) (mcfg : MailConfig) (scfg : SmsConfig)
    (emailAttempt smsAttempt : Except Unit Unit) :
    Except AppError HandlerResult :=
  if !sess.admin_logged_in then
    .error .UnauthorizedError
  else
    match getApplicant st applicant_id with
    | none => .error .NotFoundError
    | some a =>
        let a' : Applicant :=
          { a with status := "approved", admin_note := some (admin_note.getD "") }
        let st' := updateApplicant st a'
        let emailSent :=
          send_email mcfg emailAttempt
            ("Application approved - " ++ a'.full_name)
            a'.email "email_template approved"
        let smsSent : Option Bool :=
          match a'.phone with
          | some p =>
              some (send_sms scfg smsAttempt (some p)
                ("Congratulations " ++ a'.full_name ++ "! Your application is approved."))
          | none => none
        .ok (st', a', emailSent, smsSent)

/-- `reject_applicant` (src/app.py lines 193-209): symmetric to
approve, with status rejected. -/
def reject_applicant (sess : AdminSession) (st : Store) (applicant_id : Nat)
    (admin_note : Option String) (mcfg : MailConfig) (scfg : SmsConfig)
    (emailAttempt smsAttempt : Except Unit Unit) :
    Except AppError HandlerResult :=
  if !sess.admin_logged_in then
    .error .UnauthorizedError
  else
    match getApplicant st applicant_id with
    | none => .error .NotFoundError
    | some a =>
        let a' : Applicant :=
          { a with status := "rejected", admin_note := some (admin_note.getD "") }
        let st' := updateApplicant st a'
        let emailSent :=
          send_email mcfg emailAttempt
            ("Application update - " ++ a'.full_name)
            a'.email "email_template rejected"
        let smsSent : Option Bool :=
          match a'.phone with
          | some p =>
              some (send_sms scfg smsAttempt (some p)
                ("Hello " ++ a'.full_name ++ ", your application status: rejected."))
          | none => none
        .ok (st', a', emailSent, smsSent)

/-- `admin_dashboard` (src/app.py lines 159-166): unauthorized when not
logged in; otherwise the total count and the per-status counts, computed
by read-only queries. -/
def admin_dashboard (sess : AdminSession) (st : Store) :
    Except AppError (Nat × Nat × Nat × Nat) :=
  if !sess.admin_logged_in then
    .error .UnauthorizedError
  else
    .ok (st.applicants.length,
      (st.applicants.filter (fun a => a.status == "pending")).length,
      (st.applicants.filter (fun a => a.status == "approved")).length,
      (st.applicants.filter (fun a => a.status == "rejected")).length)

/-- Store well-formedness: every stored id is below the autoincrement
counter (so freshly assigned ids are unique). -/
def Store.wf (st : Store) : Prop :=
  ∀ a ∈ st.applicants, a.id < st.nextId

/-- Every stored status is one of the three lifecycle states. -/
def statusInvariant (st : Store) : Prop :=
  ∀ a ∈ st.applicants,
    a.status = "pending" ∨ a.status = "approved" ∨ a.status = "rejected"

/-- Projection of a handler result onto the committed state change,
discarding the notification outcomes. -/
def stateOf : Except AppError HandlerResult → Except AppError (Store × Applicant)
  | .error e => .error e
  | .ok (st, a, _, _) => .ok (st, a)

/-! Concrete fixtures used by counterexamples and witnesses. -/

/-- An authenticated admin session. -/
def adminSess : AdminSession := { admin_logged_in := true }

/-- A session that never logged in. -/
def guestSess : AdminSession := { admin_logged_in := false }

/-- No mail relay configured. -/
def noMail : MailConfig := { mail_server := none, mail_username := none }

/-- A configured mail relay. -/
def someMail : MailConfig := { mail_server := some "smtp.example.com", mail_username := some "u" }

/-- No SMS provider configured. -/
def noSms : SmsConfig := { clientConfigured := false, from_number := none }

/-- A configured SMS provider. -/
def someSms : SmsConfig := { clientConfigured := true, from_number := some "+15550000" }

/-- The store of a fresh database. -/
def emptyStore : Store := { applicants := [], nextId := 1 }

/-- A row that has already been approved. -/
def approvedRow : Applicant :=
  { id := 1, full_name := "Jane Doe", email := "jane@x.com", phone := none,
    course := none, address := none, status := "approved", created_at := 0,
    admin_note := some "ok" }

/-- A store holding only the already-approved row. -/
def storeOneApproved : Store := { applicants := [approvedRow], nextId := 2 }

/-- The approved row after a later reject overwrites it. -/
def rerejectedRow : Applicant :=
  { approvedRow with status := "rejected", admin_note := some "x" }

/-- The result of rejecting the already-approved applicant. -/
def rejectAfterApprove : Except AppError HandlerResult :=
  reject_applicant adminSess storeOneApproved 1 (some "x") noMail noSms
    (Except.ok ()) (Except.ok ())

/-- A registration form whose name is whitespace only. -/
def wsForm : RegForm :=
  { full_name := some " ", email := some "jane@x.com", phone := none,
    course := none, address := none }

/-- The row the whitespace-name form produces: an empty stored name. -/
def wsRow : Applicant :=
  { id := 1, full_name := "", email := "jane@x.com", phone := none,
    course := none, address := none, status := "pending", created_at := 0,
    admin_note := none }

/-- The result of submitting the whitespace-name form. -/
def wsResult : Except AppError HandlerResult :=
  register emptyStore wsForm 0 noMail noSms (Except.ok ()) (Except.ok ())

/-- C1 counterexample: the applicant is already approved, yet a reject
call succeeds, changes the stored record to rejected, and does not fail
with an invalid-transition error: the handlers perform no pending-status
guard. -/
theorem reject_on_approved_succeeds :
    approvedRow.status = "approved" ∧
    rejectAfterApprove =
      Except.ok ({ applicants := [rerejectedRow], nextId := 2 },
        rerejectedRow, false, none) ∧
    rejectAfterApprove ≠ Except.error AppError.InvalidTransitionError := by
  refine ⟨rfl, by decide, by decide⟩

/-- C1 amended: approve and reject perform no check of the current
status.  For any authenticated session and any stored applicant,
whatever its status, approve succeeds and overwrites the status with
approved, reject succeeds and overwrites it with rejected, and neither
ever returns an invalid-transition error. -/
theorem approve_reject_ignore_current_status
    (sess : AdminSession) (st : Store) (i : Nat) (note : Option String)
    (mcfg : MailConfig) (scfg : SmsConfig) (ea sa : Except Unit Unit)
    (hauth : sess.admin_logged_in = true)
    (a : Applicant) (hget : getApplicant st i = some a) :
    (∃ st1 r1 e1 s1,
        approve_applicant sess st i note mcfg scfg ea sa =
          Except.ok (st1, r1, e1, s1) ∧
        r1.status = "approved" ∧ r1.admin_note = some (note.getD "")) ∧
    (∃ st2 r2 e2 s2,
        reject_applicant sess st i note mcfg scfg ea sa =
          Except.ok (st2, r2, e2, s2) ∧
        r2.status = "rejected" ∧ r2.admin_note = some (note.getD "")) ∧
    approve_applicant sess st i note mcfg scfg ea sa ≠
      Except.error AppError.InvalidTransitionError ∧
    reject_applicant sess st i note mcfg scfg ea sa ≠
      Except.error AppError.InvalidTransitionError := by
  simp only [approve_applicant, reject_applicant, hauth, hget,
    Bool.not_true, Bool.false_eq_true, if_false]
  refine ⟨⟨_, _, _, _, rfl, rfl, rfl⟩, ⟨_, _, _, _, rfl, rfl, rfl⟩, ?_, ?_⟩ <;>
    intro h <;> exact Except.noConfusion h

/-- Witness for the amended C1 theorem at the concrete approved store. -/
theorem approve_reject_ignore_current_status_witness :
    adminSess.admin_logged_in = true ∧
    getApplicant storeOneApproved 1 = some approvedRow ∧
    (∃ st1 r1 e1 s1,
        approve_applicant adminSess storeOneApproved 1 (some "x") noMail noSms
            (Except.ok ()) (Except.ok ()) =
          Except.ok (st1, r1, e1, s1) ∧
        r1.status = "approved" ∧ r1.admin_note = some ((some "x").getD "")) := by
  refine ⟨rfl, by decide, ?_⟩
  exact (approve_reject_ignore_current_status adminSess storeOneApproved 1
    (some "x") noMail noSms (Except.ok ()) (Except.ok ()) rfl approvedRow
    (by decide)).1

/-- C3 counterexample: a name that is whitespace only becomes empty
after trimming, yet the submission does not fail with a validation
error: the truthiness check runs before trimming, and a record with an
empty stored name is created. -/
theorem whitespace_name_passes_validation :
    pyStrip (wsForm.full_name.getD "") = "" ∧
    wsResult =
      Except.ok ({ applicants := [wsRow], nextId := 2 }, wsRow, false, none) ∧
    wsResult ≠ Except.error AppError.ValidationError := by
  refine ⟨by decide, by decide, by decide⟩

/-- Python truthiness of an optional string, characterised. -/
theorem pyFalsy_eq_true (x : Option String) :
    pyFalsy x = true ↔ (x = none ∨ x = some "") := by
  rcases x with _ | s <;> simp [pyFalsy]

/-- C3 amended: register fails with a validation error exactly when the
posted name or email is absent or (before any trimming) the empty
string; a whitespace-only value passes the check and is stored trimmed,
possibly as the empty string. -/
theorem register_validation_is_pretrim
    (st : Store) (f : RegForm) (now : Nat) (mcfg : MailConfig)
    (scfg : SmsConfig) (ea sa : Except Unit Unit) :
    register st f now mcfg scfg ea sa = Except.error AppError.ValidationError ↔
      (f.full_name = none ∨ f.full_name = some "" ∨
       f.email = none ∨ f.email = some "") := by
  have hcond : register st f now mcfg scfg ea sa =
      Except.error AppError.ValidationError ↔
      (pyFalsy f.full_name || pyFalsy f.email) = true := by
    unfold register
    split
    · simp_all
    · next h => simp [h]
  rw [hcond, Bool.or_eq_true, pyFalsy_eq_true, pyFalsy_eq_true]
  tauto

/-- C2: a submission with non-empty name and email succeeds and creates
a record whose status is pending, whose identifier is fresh (distinct
from every stored id, by the autoincrement invariant), and whose
optional phone, course and address are stored trimmed when provided
non-empty. -/
theorem register_valid_creates_pending
    (st : Store) (f : RegForm) (now : Nat) (mcfg : MailConfig)
    (scfg : SmsConfig) (ea sa : Except Unit Unit)
    (hwf : st.wf)
    (n : String) (hn : f.full_name = some n) (hn' : n ≠ "")
    (e : String) (he : f.email = some e) (he' : e ≠ "") :
    ∃ st' a eS sS,
      register st f now mcfg scfg ea sa = Except.ok (st', a, eS, sS) ∧
      a.status = "pending" ∧
      a.id ∉ st.applicants.map Applicant.id ∧
      a ∈ st'.applicants ∧
      st'.wf ∧
      (∀ p, f.phone = some p → p ≠ "" → a.phone = some (pyStrip p)) ∧
      (∀ c, f.course = some c → c ≠ "" → a.course = some (pyStrip c)) ∧
      (∀ d, f.address = some d → d ≠ "" → a.address = some (pyStrip d)) := by
  have hfn : pyFalsy f.full_name = false := by simp [hn, pyFalsy, hn']
  have hfe : pyFalsy f.email = false := by simp [he, pyFalsy, he']
  have hreg : register st f now mcfg scfg ea sa =
      Except.ok ({ applicants := st.applicants ++ [newApplicant st f now],
                   nextId := st.nextId + 1 },
                 newApplicant st f now,
                 send_email mcfg ea
                   ("Application received - " ++ (newApplicant st f now).full_name)
                   (newApplicant st f now).email "email_template received",
                 match (newApplicant st f now).phone with
                 | some p =>
                     some (send_sms scfg sa (some p)
                       ("Hi " ++ (newApplicant st f now).full_name ++
                         ", we received your application."))
                 | none => none) := by
    unfold register
    rw [hfn, hfe]
    rfl
  refine ⟨_, _, _, _, hreg, rfl, ?_, ?_, ?_, ?_, ?_, ?_⟩
  · intro hmem
    simp only [List.mem_map] at hmem
    obtain ⟨b, hb, hid⟩ := hmem
    exact absurd hid (Nat.ne_of_lt (hwf b hb))
  · simp
  · intro b hb
    rcases List.mem_append.1 hb with h | h
    · exact Nat.lt_succ_of_lt (hwf b h)
    · simp only [List.mem_singleton] at h
      subst h
      exact Nat.lt_succ_self _
  · intro p hp hp'
    simp [newApplicant, hp, stripOpt, hp']
  · intro c hc hc'
    simp [newApplicant, hc, stripOpt, hc']
  · intro d hd hd'
    simp [newApplicant, hd, stripOpt, hd']

/-- Witness for C2 at a concrete valid submission. -/
theorem register_valid_creates_pending_witness :
    emptyStore.wf ∧
    (∃ st' a eS sS,
      register emptyStore
          { full_name := some "Jane Doe", email := some "jane@x.com",
            phone := some " +15551234 ", course := none, address := none }
          0 noMail noSms (Except.ok ()) (Except.ok ()) =
        Except.ok (st', a, eS, sS) ∧
      a.status = "pending" ∧
      a.id ∉ emptyStore.applicants.map Applicant.id ∧
      a ∈ st'.applicants ∧
      st'.wf ∧
      (∀ p, (some " +15551234 " : Option String) = some p → p ≠ "" →
        a.phone = some (pyStrip p)) ∧
      (∀ c, (none : Option String) = some c → c ≠ "" →
        a.course = some (pyStrip c)) ∧
      (∀ d, (none : Option String) = some d → d ≠ "" →
        a.address = some (pyStrip d))) :=
  ⟨fun a ha => absurd ha (List.not_mem_nil a),
    register_valid_creates_pending emptyStore
      { full_name := some "Jane Doe", email := some "jane@x.com",
        phone := some " +15551234 ", course := none, address := none }
      0 noMail noSms (Except.ok ()) (Except.ok ())
      (fun a ha => absurd ha (List.not_mem_nil a))
      "Jane Doe" rfl (by decide) "jane@x.com" rfl (by decide)⟩

/-- C4: the notification helpers are total functions into Bool for
every outcome of the external delivery call, so neither ever throws to
the caller; each returns false when its relay or provider is
unconfigured, false when the external call raises (after logging), and
the SMS helper returns false when the recipient number is absent. -/
theorem notification_helpers_contract
    (mcfg : MailConfig) (scfg : SmsConfig) (att : Except Unit Unit)
    (subj rcpt body : String) (num : Option String) (smsBody : String) :
    (pyFalsy mcfg.mail_server = true →
      send_email mcfg att subj rcpt body = false) ∧
    (send_email mcfg (Except.error ()) subj rcpt body = false) ∧
    ((!scfg.clientConfigured || pyFalsy scfg.from_number) = true →
      send_sms scfg att num smsBody = false) ∧
    (send_sms scfg (Except.error ()) num smsBody = false) ∧
    (num = none → send_sms scfg att num smsBody = false) := by
  refine ⟨?_, ?_, ?_, ?_, ?_⟩
  · intro h
    unfold send_email
    rw [h]
    rfl
  · unfold send_email mail_send
    split
    · rfl
    · rfl
  · intro h
    unfold send_sms
    rw [h]
    rfl
  · unfold send_sms sms_provider_create
    split
    · rfl
    · rcases num with _ | p <;> rfl
  · intro h
    subst h
    unfold send_sms sms_provider_create
    split <;> rfl

/-- Witness for C4 at concrete unconfigured and failing inputs. -/
theorem notification_helpers_contract_witness :
    pyFalsy noMail.mail_server = true ∧
    send_email noMail (Except.ok ()) "s" "r" "b" = false ∧
    send_email someMail (Except.error ()) "s" "r" "b" = false ∧
    (!noSms.clientConfigured || pyFalsy noSms.from_number) = true ∧
    send_sms noSms (Except.ok ()) (some "+1") "b" = false ∧
    send_sms someSms (Except.error ()) (some "+1") "b" = false ∧
    send_sms someSms (Except.ok ()) none "b" = false := by
  have h1 := notification_helpers_contract noMail someSms (Except.ok ())
    "s" "r" "b" (some "+1") "b"
  have h2 := notification_helpers_contract someMail noSms (Except.ok ())
    "s" "r" "b" (some "+1") "b"
  have h3 := notification_helpers_contract someMail someSms (Except.ok ())
    "s" "r" "b" none "b"
  exact ⟨rfl, h1.1 rfl, h2.2.1, rfl, h2.2.2.1 rfl, h1.2.2.2.1, h3.2.2.2.2 rfl⟩

/-- C5: the committed state change (new store and affected row) and the
success of each mutating handler are identical for every outcome of the
email and SMS delivery attempts: the row is committed before the
notifications run, and a notification failure never rolls the change
back or turns the operation into a failure. -/
theorem notifications_never_affect_state
    (st : Store) (f : RegForm) (now : Nat) (sess : AdminSession) (i : Nat)
    (note : Option String) (mcfg : MailConfig) (scfg : SmsConfig)
    (ea1 sa1 ea2 sa2 : Except Unit Unit) :
    stateOf (register st f now mcfg scfg ea1 sa1) =
      stateOf (register st f now mcfg scfg ea2 sa2) ∧
    stateOf (approve_applicant sess st i note mcfg scfg ea1 sa1) =
      stateOf (approve_applicant sess st i note mcfg scfg ea2 sa2) ∧
    stateOf (reject_applicant sess st i note mcfg scfg ea1 sa1) =
      stateOf (reject_applicant sess st i note mcfg scfg ea2 sa2) := by
  refine ⟨?_, ?_, ?_⟩
  · unfold register
    split <;> rfl
  · unfold approve_applicant
    split
    · rfl
    · split <;> rfl
  · unfold reject_applicant
    split
    · rfl
    · split <;> rfl

/-- Shape of a successful approve: it found a row, and committed that
row with only status and admin note replaced. -/
theorem approve_ok_shape
    (sess : AdminSession) (st : Store) (i : Nat) (note : Option String)
    (mcfg : MailConfig) (scfg : SmsConfig) (ea sa : Except Unit Unit)
    (st' : Store) (r : Applicant) (eS : Bool) (sS : Option Bool)
    (h : approve_applicant sess st i note mcfg scfg ea sa =
      Except.ok (st', r, eS, sS)) :
    ∃ a, getApplicant st i = some a ∧
      r = { a with status := "approved", admin_note := some (note.getD "") } ∧
      st' = updateApplicant st r := by
  unfold approve_applicant at h
  split at h
  · exact Except.noConfusion h
  · rcases hget : getApplicant st i with _ | a
    · rw [hget] at h
      exact Except.noConfusion h
    · rw [hget] at h
      simp only [Except.ok.injEq, Prod.mk.injEq] at h
      obtain ⟨hst, hr, -, -⟩ := h
      subst hr
      subst hst
      exact ⟨a, rfl, rfl, rfl⟩

/-- Shape of a successful reject: symmetric to approve. -/
theorem reject_ok_shape
    (sess : AdminSession) (st : Store) (i : Nat) (note : Option String)
    (mcfg : MailConfig) (scfg : SmsConfig) (ea sa : Except Unit Unit)
    (st' : Store) (r : Applicant) (eS : Bool) (sS : Option Bool)
    (h : reject_applicant sess st i note mcfg scfg ea sa =
      Except.ok (st', r, eS, sS)) :
    ∃ a, getApplicant st i = some a ∧
      r = { a with status := "rejected", admin_note := some (note.getD "") } ∧
      st' = updateApplicant st r := by
  unfold reject_applicant at h
  split at h
  · exact Except.noConfusion h
  · rcases hget : getApplicant st i with _ | a
    · rw [hget] at h
      exact Except.noConfusion h
    · rw [hget] at h
      simp only [Except.ok.injEq, Prod.mk.injEq] at h
      obtain ⟨hst, hr, -, -⟩ := h
      subst hr
      subst hst
      exact ⟨a, rfl, rfl, rfl⟩

/-- C6: a successful approve or reject rewrites the found row with only
status and admin note replaced (the record-update form keeps the
identifier, creation timestamp, name, email, phone, course and address
of the old row), keeps the autoincrement counter, and leaves every row
with a different id in the store unchanged. -/
theorem approve_reject_change_only_status_note
    (sess : AdminSession) (st : Store) (i : Nat) (note : Option String)
    (mcfg : MailConfig) (scfg : SmsConfig) (ea sa : Except Unit Unit)
    (st1 : Store) (r1 : Applicant) (e1 : Bool) (s1 : Option Bool)
    (st2 : Store) (r2 : Applicant) (e2 : Bool) (s2 : Option Bool)
    (h1 : approve_applicant sess st i note mcfg scfg ea sa =
      Except.ok (st1, r1, e1, s1))
    (h2 : reject_applicant sess st i note mcfg scfg ea sa =
      Except.ok (st2, r2, e2, s2)) :
    ∃ a, getApplicant st i = some a ∧
      r1 = { a with status := "approved", admin_note := some (note.getD "") } ∧
      r2 = { a with status := "rejected", admin_note := some (note.getD "") } ∧
      r1.id = a.id ∧ r1.created_at = a.created_at ∧
      r2.id = a.id ∧ r2.created_at = a.created_at ∧
      st1.nextId = st.nextId ∧ st2.nextId = st.nextId ∧
      (∀ b ∈ st.applicants, b.id ≠ a.id →
        b ∈ st1.applicants ∧ b ∈ st2.applicants) := by
  obtain ⟨a, hget, hr1, hst1⟩ :=
    approve_ok_shape sess st i note mcfg scfg ea sa st1 r1 e1 s1 h1
  obtain ⟨a', hget', hr2, hst2⟩ :=
    reject_ok_shape sess st i note mcfg scfg ea sa st2 r2 e2 s2 h2
  rw [hget] at hget'
  injection hget' with haa
  subst haa
  subst hr1
  subst hr2
  subst hst1
  subst hst2
  refine ⟨a, hget, rfl, rfl, rfl, rfl, rfl, rfl, rfl, rfl, ?_⟩
  intro b hb hbid
  constructor <;>
    exact List.mem_map.2 ⟨b, hb, if_neg (by simpa using hbid)⟩

/-- C7: with a session that is not marked logged in, approve, reject
and the dashboard all fail with the unauthorized error; no new store is
produced and no notification runs (the error result carries neither). -/
theorem unauthenticated_admin_ops_fail
    (sess : AdminSession) (st : Store) (i : Nat) (note : Option String)
    (mcfg : MailConfig) (scfg : SmsConfig) (ea sa : Except Unit Unit)
    (h : sess.admin_logged_in = false) :
    approve_applicant sess st i note mcfg scfg ea sa =
      Except.error AppError.UnauthorizedError ∧
    reject_applicant sess st i note mcfg scfg ea sa =
      Except.error AppError.UnauthorizedError ∧
    admin_dashboard sess st = Except.error AppError.UnauthorizedError := by
  unfold approve_applicant reject_applicant admin_dashboard
  rw [h]
  exact ⟨rfl, rfl, rfl⟩

/-- Witness for C7 with the guest session on the approved store. -/
theorem unauthenticated_admin_ops_fail_witness :
    guestSess.admin_logged_in = false ∧
    (approve_applicant guestSess storeOneApproved 1 (some "x") noMail noSms
        (Except.ok ()) (Except.ok ()) =
      Except.error AppError.UnauthorizedError ∧
    reject_applicant guestSess storeOneApproved 1 (some "x") noMail noSms
        (Except.ok ()) (Except.ok ()) =
      Except.error AppError.UnauthorizedError ∧
    admin_dashboard guestSess storeOneApproved =
      Except.error AppError.UnauthorizedError) :=
  ⟨rfl, unauthenticated_admin_ops_fail guestSess storeOneApproved 1 (some "x")
    noMail noSms (Except.ok ()) (Except.ok ()) rfl⟩

/-- C8: every status reachable through the handlers stays in the set of
the three lifecycle states: register appends a pending row, approve and
reject rewrite one row to approved or rejected, and the dashboard does
not write at all. -/
theorem status_invariant_preserved
    (st : Store) (f : RegForm) (now : Nat) (sess : AdminSession) (i : Nat)
    (note : Option String) (mcfg : MailConfig) (scfg : SmsConfig)
    (ea sa : Except Unit Unit)
    (hinv : statusInvariant st) :
    (∀ st' a eS sS,
      register st f now mcfg scfg ea sa = Except.ok (st', a, eS, sS) →
        statusInvariant st') ∧
    (∀ st' a eS sS,
      approve_applicant sess st i note mcfg scfg ea sa =
        Except.ok (st', a, eS, sS) → statusInvariant st') ∧
    (∀ st' a eS sS,
      reject_applicant sess st i note mcfg scfg ea sa =
        Except.ok (st', a, eS, sS) → statusInvariant st') := by
  refine ⟨?_, ?_, ?_⟩
  · intro st' a eS sS h
    unfold register at h
    split at h
    · exact Except.noConfusion h
    · simp only [Except.ok.injEq, Prod.mk.injEq] at h
      obtain ⟨hst, -, -, -⟩ := h
      subst hst
      intro b hb
      rcases List.mem_append.1 hb with hmem | hmem
      · exact hinv b hmem
      · simp only [List.mem_singleton] at hmem
        subst hmem
        left
        rfl
  · intro st' a eS sS h
    obtain ⟨c, -, hr, hst⟩ :=
      approve_ok_shape sess st i note mcfg scfg ea sa st' a eS sS h
    subst hr
    subst hst
    intro b hb
    obtain ⟨c', hc', hbc⟩ := List.mem_map.1 hb
    split at hbc
    · subst hbc
      right
      left
      rfl
    · subst hbc
      exact hinv c' hc'
  · intro st' a eS sS h
    obtain ⟨c, -, hr, hst⟩ :=
      reject_ok_shape sess st i note mcfg scfg ea sa st' a eS sS h
    subst hr
    subst hst
    intro b hb
    obtain ⟨c', hc', hbc⟩ := List.mem_map.1 hb
    split at hbc
    · subst hbc
      right
      right
      rfl
    · subst hbc
      exact hinv c' hc'

/-- C9: when authenticated, the dashboard returns the total number of
stored applicants together with the number of rows counted in each of
the three statuses; it takes no store and returns none, so it writes
nothing. -/
theorem dashboard_counts (sess : AdminSession) (st : Store)
    (h : sess.admin_logged_in = true) :
    admin_dashboard sess st =
      Except.ok (st.applicants.length,
        st.applicants.countP (fun a => a.status == "pending"),
        st.applicants.countP (fun a => a.status == "approved"),
        st.applicants.countP (fun a => a.status == "rejected")) := by
  unfold admin_dashboard
  rw [h]
  simp [List.countP_eq_length_filter]

/-- C10: a successful approve or reject stores exactly the posted note,
defaulting to the empty string (not an absent note) when none was
posted, whatever note the row held before. -/
theorem admin_note_always_overwritten
    (sess : AdminSession) (st : Store) (i : Nat) (note : Option String)
    (mcfg : MailConfig) (scfg : SmsConfig) (ea sa : Except Unit Unit)
    (st1 : Store) (r1 : Applicant) (e1 : Bool) (s1 : Option Bool)
    (st2 : Store) (r2 : Applicant) (e2 : Bool) (s2 : Option Bool)
    (h1 : approve_applicant sess st i note mcfg scfg ea sa =
      Except.ok (st1, r1, e1, s1))
    (h2 : reject_applicant sess st i note mcfg scfg ea sa =
      Except.ok (st2, r2, e2, s2)) :
    r1.admin_note = some (note.getD "") ∧
    r2.admin_note = some (note.getD "") ∧
    (note = none → r1.admin_note = some "" ∧ r2.admin_note = some "") := by
  obtain ⟨a, -, hr1, -⟩ :=
    approve_ok_shape sess st i note mcfg scfg ea sa st1 r1 e1 s1 h1
  obtain ⟨a', -, hr2, -⟩ :=
    reject_ok_shape sess st i note mcfg scfg ea sa st2 r2 e2 s2 h2
  subst hr1
  subst hr2
  refine ⟨rfl, rfl, fun hn => ?_⟩
  subst hn
  exact ⟨rfl, rfl⟩

/-- The approved row after approve overwrites it with note x. -/
def reapprovedRowX : Applicant :=
  { approvedRow with status := "approved", admin_note := some "x" }

/-- The approved row after approve with no posted note. -/
def reapprovedRowE : Applicant :=
  { approvedRow with status := "approved", admin_note := some "" }

/-- The approved row after reject with no posted note. -/
def rerejectedRowE : Applicant :=
  { approvedRow with status := "rejected", admin_note := some "" }

/-- A pending row for the dashboard scenario. -/
def pendingRow : Applicant :=
  { id := 2, full_name := "Bob Roe", email := "bob@x.com", phone := none,
    course := none, address := none, status := "pending", created_at := 1,
    admin_note := none }

/-- A rejected row for the dashboard scenario. -/
def rejectedRow : Applicant :=
  { id := 3, full_name := "Cal Poe", email := "cal@x.com", phone := none,
    course := none, address := none, status := "rejected", created_at := 2,
    admin_note := some "no" }

/-- One pending, one approved and one rejected row. -/
def threeStore : Store :=
  { applicants := [pendingRow, approvedRow, rejectedRow], nextId := 4 }

/-- Witness for C6 on the concrete approved store. -/
theorem approve_reject_change_only_status_note_witness :
    ∃ a, getApplicant storeOneApproved 1 = some a ∧
      reapprovedRowX =
        { a with status := "approved",
                 admin_note := some ((some "x" : Option String).getD "") } ∧
      rerejectedRow =
        { a with status := "rejected",
                 admin_note := some ((some "x" : Option String).getD "") } ∧
      reapprovedRowX.id = a.id ∧ reapprovedRowX.created_at = a.created_at ∧
      rerejectedRow.id = a.id ∧ rerejectedRow.created_at = a.created_at ∧
      ({ applicants := [reapprovedRowX], nextId := 2 } : Store).nextId =
        storeOneApproved.nextId ∧
      ({ applicants := [rerejectedRow], nextId := 2 } : Store).nextId =
        storeOneApproved.nextId ∧
      (∀ b ∈ storeOneApproved.applicants, b.id ≠ a.id →
        b ∈ ({ applicants := [reapprovedRowX], nextId := 2 } : Store).applicants ∧
        b ∈ ({ applicants := [rerejectedRow], nextId := 2 } : Store).applicants) :=
  approve_reject_change_only_status_note adminSess storeOneApproved 1
    (some "x") noMail noSms (Except.ok ()) (Except.ok ())
    { applicants := [reapprovedRowX], nextId := 2 } reapprovedRowX false none
    { applicants := [rerejectedRow], nextId := 2 } rerejectedRow false none
    (by decide) (by decide)

/-- Witness for C8 starting from the empty store. -/
theorem status_invariant_preserved_witness :
    statusInvariant emptyStore ∧
    ((∀ st' a eS sS,
      register emptyStore wsForm 0 noMail noSms (Except.ok ()) (Except.ok ()) =
        Except.ok (st', a, eS, sS) → statusInvariant st') ∧
    (∀ st' a eS sS,
      approve_applicant adminSess emptyStore 1 (some "x") noMail noSms
          (Except.ok ()) (Except.ok ()) =
        Except.ok (st', a, eS, sS) → statusInvariant st') ∧
    (∀ st' a eS sS,
      reject_applicant adminSess emptyStore 1 (some "x") noMail noSms
          (Except.ok ()) (Except.ok ()) =
        Except.ok (st', a, eS, sS) → statusInvariant st')) :=
  ⟨fun a ha => absurd ha (List.not_mem_nil a),
    status_invariant_preserved emptyStore wsForm 0 adminSess 1 (some "x")
      noMail noSms (Except.ok ()) (Except.ok ())
      (fun a ha => absurd ha (List.not_mem_nil a))⟩

/-- Witness for C9: the dashboard scenario with one pending, one
approved and one rejected record yields total three and one of each. -/
theorem dashboard_counts_witness :
    adminSess.admin_logged_in = true ∧
    admin_dashboard adminSess threeStore = Except.ok (3, 1, 1, 1) :=
  ⟨rfl, (dashboard_counts adminSess threeStore rfl).trans (by decide)⟩

/-- Witness for C10 on the concrete approved store with no posted
note: the stored note becomes the empty string, and the previous note
of the row is gone. -/
theorem admin_note_always_overwritten_witness :
    reapprovedRowE.admin_note = some ((none : Option String).getD "") ∧
    rerejectedRowE.admin_note = some ((none : Option String).getD "") ∧
    ((none : Option String) = none →
      reapprovedRowE.admin_note = some "" ∧
      rerejectedRowE.admin_note = some "") :=
  admin_note_always_overwritten adminSess storeOneApproved 1 none
    noMail noSms (Except.ok ()) (Except.ok ())
    { applicants := [reapprovedRowE], nextId := 2 } reapprovedRowE false none
    { applicants := [rerejectedRowE], nextId := 2 } rerejectedRowE false none
    (by decide) (by decide)

end Admission
